import Mathlib

/-!
Verification of the client-side spreadsheet table engine and the multi-slot
upload store of the popic projection app.

The TypeScript sources are embedded shallowly:

* `SpreadsheetDataTableComponent` (the search / column-filter / sort / paginate
  pipeline of `spreadsheet-data-table.component.ts`) becomes a family of pure
  functions over `Row` lists (`filteredData`, `sortedData`, `totalPages`,
  `clampedPageIndex`, `paginatedData`, `pageNumbers`, `toggleSort`).
* The NgRx `spreadsheetsReducer` becomes an explicit step function
  `spreadsheetsReducer : SpreadsheetsState → SpreadsheetsAction → SpreadsheetsState`.
* The per-file error-message computation of the upload effects becomes
  `errorMessageMsgFirst` / `errorMessageDetailFirst`.

JavaScript runtime values are abstracted by `Cell`: a record carrying the
observations the code makes of a value (`v === null || v === undefined`,
`v === ''`, `String(v)`, and `Number(v)` where `none` stands for `NaN`).
`localeCompare` is environment-defined, so the string comparator is a
parameter `strCmp` of the sorting functions.
-/

/-- Abstraction of a JavaScript cell value: the four observations the table
code makes of it. `num = none` models `Number(v)` being `NaN`. -/
structure Cell where
  isNullish : Bool
  isEmptyString : Bool
  str : String
  num : Option Rat
deriving DecidableEq, Repr

/-- The JS value `undefined` (what `row[col]` yields for an absent key):
nullish, `String(undefined) = "undefined"`, `Number(undefined) = NaN`. -/
def undefCell : Cell := ⟨true, false, "undefined", none⟩

/-- A spreadsheet row: a finite mapping from column names to cell values. -/
def Row : Type := List (String × Cell)

instance : DecidableEq Row := inferInstanceAs (DecidableEq (List (String × Cell)))

/-- Property access `row[col]`; an absent key yields `undefined`. -/
def getCell (row : Row) (col : String) : Cell :=
  (row.lookup col).getD undefCell

/-- The stringification `String(row[col] ?? '')` used throughout the pipeline:
nullish values become the empty string. -/
def strOf (row : Row) (col : String) : String :=
  let v := getCell row col
  if v.isNullish then "" else v.str

/-- The numeric parse `Number(row[col])` used by the sort comparator. -/
def cellNum (row : Row) (col : String) : Option Rat :=
  (getCell row col).num

/-- A cell counts as blank for column classification when
`v === null || v === undefined || v === ''`. -/
def cellBlank (v : Cell) : Bool :=
  v.isNullish || v.isEmptyString

/-- Translation of `isColumnNumeric` (spreadsheet-data-table.component.ts):
scan the rows; skip null/undefined/empty-string cells; fail on the first value
whose `Number(v)` is `NaN`. -/
def isColumnNumeric (data : List Row) (col : String) : Bool :=
  data.all fun row =>
    let v := getCell row col
    cellBlank v || (v.num).isSome

/-- The JS `toLowerCase()` on a string, written over the character list so
that it reduces in the kernel. -/
def lowerStr (s : String) : String := String.mk (s.toList.map Char.toLower)

/-- The JS `trim()` on a string: strip leading and trailing whitespace. -/
def trimStr (s : String) : String :=
  String.mk (((s.toList.dropWhile Char.isWhitespace).reverse.dropWhile Char.isWhitespace).reverse)

/-- Decidable check that `pat` is a prefix of a character list. -/
def charsPrefixEq : List Char → List Char → Bool
  | [], _ => true
  | _ :: _, [] => false
  | a :: as, b :: bs => a = b && charsPrefixEq as bs

/-- The JS `s.includes(pat)` substring test. -/
def strIncludes (s pat : String) : Bool :=
  (List.range (s.toList.length + 1)).any fun i =>
    charsPrefixEq pat.toList (s.toList.drop i)

/-- Translation of `isFilterable`: case-insensitive membership of `col` in the
`filterableColumns` input. -/
def isFilterable (filterable : List String) (col : String) : Bool :=
  filterable.any fun key => lowerStr key = lowerStr col

/-- The per-column filtering loop of `filteredData`: for each displayed column
that is filterable and has a non-empty selected set, keep the rows whose
stringified value belongs to the set. -/
def applyColumnFilters (filterable : List String)
    (filters : List (String × List String)) (cols : List String)
    (rows : List Row) : List Row :=
  cols.foldl
    (fun rs col =>
      if isFilterable filterable col then
        match filters.lookup col with
        | some sel => if 0 < sel.length then rs.filter fun row => sel.contains (strOf row col) else rs
        | none => rs
      else rs)
    rows

/-- Translation of the `filteredData` computed signal: empty when the data or
column list is empty; otherwise the full-text search filter followed by the
per-column value filters. -/
def filteredData (data : List Row) (cols : List String) (search : String)
    (filterable : List String) (filters : List (String × List String)) : List Row :=
  let s := lowerStr (trimStr search)
  if data.length = 0 ∨ cols.length = 0 then []
  else
    let rows :=
      if s ≠ "" then
        data.filter fun row => cols.any fun col => strIncludes (lowerStr (strOf row col)) s
      else data
    applyColumnFilters filterable filters cols rows

/-- Sort directions of the component (`'asc' | 'desc'`). -/
inductive SortDir where
  | asc
  | desc
deriving DecidableEq, Repr

/-- The direction multiplier `dir === 'asc' ? 1 : -1`. -/
def multOf : SortDir → Rat
  | .asc => 1
  | .desc => -1

/-- Translation of the comparator body of `sortedData`. In the numeric branch,
`NaN`s compare equal to each other and after every parsed number, irrespective
of `mult`; in the string branch `strCmp` stands for
`localeCompare(..., { sensitivity: 'base' })`. -/
def rowCmp (strCmp : String → String → Int) (numeric : Bool) (mult : Rat)
    (col : String) (a b : Row) : Rat :=
  if numeric then
    match cellNum a col, cellNum b col with
    | none, none => 0
    | none, some _ => 1
    | some _, none => -1
    | some na, some nb => mult * (na - nb)
  else
    mult * ((strCmp (strOf a col) (strOf b col) : Int) : Rat)

/-- The boolean "may come first" relation induced by the comparator: a stable
sort with comparator `c` keeps `a` before `b` exactly when `c a b ≤ 0`. -/
def rowLe (strCmp : String → String → Int) (numeric : Bool) (mult : Rat)
    (col : String) (a b : Row) : Bool :=
  decide (rowCmp strCmp numeric mult col a b ≤ 0)

/-- The stable sort `[...rows].sort(comparator)`. -/
def sortRows (strCmp : String → String → Int) (numeric : Bool) (mult : Rat)
    (col : String) (rows : List Row) : List Row :=
  rows.mergeSort (rowLe strCmp numeric mult col)

/-- Translation of the `sortedData` computed signal. Note the numeric-ness of
the sort column is computed from the full `data`, not from the filtered rows. -/
def sortedData (strCmp : String → String → Int) (data : List Row)
    (cols : List String) (search : String) (filterable : List String)
    (filters : List (String × List String)) (sortCol : Option String)
    (dir : SortDir) : List Row :=
  let rows := filteredData data cols search filterable filters
  match sortCol with
  | none => rows
  | some col =>
    if ¬ cols.contains col ∨ rows.length = 0 then rows
    else sortRows strCmp (isColumnNumeric data col) (multOf dir) col rows

/-- The `totalRows` computed signal: the length of the filtered data. -/
def totalRows (data : List Row) (cols : List String) (search : String)
    (filterable : List String) (filters : List (String × List String)) : Nat :=
  (filteredData data cols search filterable filters).length

/-- Translation of the `totalPages` computed signal:
`size <= 0 ? 0 : Math.ceil(total / size)`. -/
def totalPages (total : Nat) (size : Nat) : Nat :=
  if size = 0 then 0 else (total + size - 1) / size

/-- Translation of the `clampedPageIndex` computed signal:
`Math.min(Math.max(0, pageIndex), Math.max(0, pages - 1))` (a natural number,
since the JS value is never negative). -/
def clampedPageIndex (pages : Nat) (idx : Int) : Nat :=
  (min (max 0 idx) (max 0 ((pages : Int) - 1))).toNat

/-- The slice `rows.slice(start, start + size)` taken by `paginatedData`. -/
def pageSlice (rows : List Row) (size start : Nat) : List Row :=
  (rows.drop start).take size

/-- Translation of the `paginatedData` computed signal. -/
def paginatedData (strCmp : String → String → Int) (data : List Row)
    (cols : List String) (search : String) (filterable : List String)
    (filters : List (String × List String)) (sortCol : Option String)
    (dir : SortDir) (pageIdx : Int) (size : Nat) : List Row :=
  let rows := sortedData strCmp data cols search filterable filters sortCol dir
  let idx := clampedPageIndex (totalPages (totalRows data cols search filterable filters) size) pageIdx
  pageSlice rows size (idx * size)

/-- Translation of the `pageNumbers` computed signal (`-1` is the ellipsis
sentinel); the loops pushing consecutive indices become `List.range` maps. -/
def pageNumbers (total : Nat) (current : Nat) : List Int :=
  if total ≤ 7 then (List.range total).map Int.ofNat
  else if current ≤ 3 then
    ((List.range 5).map Int.ofNat) ++ [-1, (total : Int) - 1]
  else if total - 4 ≤ current then
    [0, -1] ++ ((List.range 5).map fun i => (total : Int) - 5 + i)
  else
    [0, -1] ++ [(current : Int) - 1, (current : Int), (current : Int) + 1] ++ [-1, (total : Int) - 1]

/-- The sort-related signals of the data-table component that `toggleSort`
reads and writes. -/
structure TableSortState where
  sortColumn : Option String
  sortDirection : SortDir
  pageIndex : Int
deriving DecidableEq, Repr

/-- Translation of `toggleSort` (spreadsheet-data-table.component.ts):
filterable columns are ignored; otherwise the current column cycles
asc → desc → unsorted and any other column starts at asc; the page index is
reset to 0. -/
def toggleSort (filterable : List String) (s : TableSortState)
    (col : String) : TableSortState :=
  if isFilterable filterable col then s
  else if s.sortColumn = some col then
    if s.sortDirection = .asc then
      { s with sortDirection := .desc, pageIndex := 0 }
    else
      { sortColumn := none, sortDirection := .asc, pageIndex := 0 }
  else
    { sortColumn := some col, sortDirection := .asc, pageIndex := 0 }

/-- One entry of the `cleanedSortState` signal of the spreadsheets page. -/
structure CleanedSort where
  columnKey : Option String
  direction : SortDir
deriving DecidableEq, Repr

/-- The default entry pushed by the `while (next.length <= idx)` padding loop. -/
def defaultCleanedSort : CleanedSort := ⟨none, .asc⟩

/-- The padding loop `while (next.length <= idx) next.push(d)`. -/
def padTo (xs : List CleanedSort) (idx : Nat) : List CleanedSort :=
  xs ++ List.replicate (idx + 1 - xs.length) defaultCleanedSort

/-- Translation of `setCleanedSort` (spreadsheets-page.ts): pad the per-slot
sort array up to the selected index, then set that entry to the clicked
column, descending when it was already sorted ascending by the same column,
ascending otherwise. -/
def setCleanedSort (state : List CleanedSort) (idx : Nat)
    (col : String) : List CleanedSort :=
  let next := padTo state idx
  let prev := next.getD idx defaultCleanedSort
  next.set idx
    { columnKey := some col
      direction := if prev.columnKey = some col ∧ prev.direction = .asc then .desc else .asc }

/-- One upload result slot (`FileResultSlot` of spreadsheets.actions.ts). -/
structure FileResultSlot where
  filename : String
  loading : Bool
  error : Option String
  data : Option (List Row)
  columns : Option (List String)
deriving DecidableEq

/-- A successful per-file server response (`SpreadsheetsResponse`). -/
structure UploadResult where
  filename : String
  totalRows : Nat
  columns : List String
  data : List Row
deriving DecidableEq

/-- The NgRx `SpreadsheetsState` (spreadsheets.reducer.ts). -/
structure SpreadsheetsState where
  rawFileResults : List FileResultSlot
  cleanedFileResults : List FileResultSlot
  selectedRawIndex : Int
  selectedCleanedIndex : Int
  commissionRawFileResults : List FileResultSlot
  commissionCleanedFileResults : List FileResultSlot
  selectedCommissionRawIndex : Int
  selectedCommissionCleanedIndex : Int
deriving DecidableEq

/-- The initial store state. -/
def initialState : SpreadsheetsState :=
  ⟨[], [], 0, 0, [], [], 0, 0⟩

/-- The actions handled by the reducer. -/
inductive SpreadsheetsAction where
  | setRawSlots (filenames : List String)
  | rawFileSuccess (index : Int) (result : UploadResult)
  | rawFileError (index : Int) (error : String)
  | setCleanedSlots (filenames : List String)
  | cleanedFileSuccess (index : Int) (result : UploadResult)
  | cleanedFileError (index : Int) (error : String)
  | setSelectedRawIndex (index : Int)
  | setSelectedCleanedIndex (index : Int)
  | resetSpreadsheetsUpload
  | setCommissionRawSlots (filenames : List String)
  | commissionRawFileSuccess (index : Int) (result : UploadResult)
  | commissionRawFileError (index : Int) (error : String)
  | setCommissionCleanedSlots (filenames : List String)
  | commissionCleanedFileSuccess (index : Int) (result : UploadResult)
  | commissionCleanedFileError (index : Int) (error : String)
  | setSelectedCommissionRawIndex (index : Int)
  | setSelectedCommissionCleanedIndex (index : Int)

/-- A fresh Loading slot created by the `set*Slots` handlers. -/
def loadingSlot (filename : String) : FileResultSlot :=
  ⟨filename, true, none, none, none⟩

/-- The slot written by a `*FileSuccess` handler (a brand-new object; any
previous `error` field is gone). -/
def successSlot (r : UploadResult) : FileResultSlot :=
  ⟨r.filename, false, none, some r.data, some r.columns⟩

/-- The slot update of a `*FileError` handler:
`{ ...slot, loading: false, error: error || 'Upload failed' }`. -/
def errorUpdate (e : String) (s : FileResultSlot) : FileResultSlot :=
  { s with loading := false, error := some (if e = "" then "Upload failed" else e) }

/-- The guarded array write `if (next[index]) next[index] = f(next[index])`:
nothing happens when `index` is out of bounds (in particular negative). -/
def applySlotWrite (slots : List FileResultSlot) (index : Int)
    (f : FileResultSlot → FileResultSlot) : List FileResultSlot :=
  if index < 0 then slots
  else
    match slots[index.toNat]? with
    | some s => slots.set index.toNat (f s)
    | none => slots

/-- Translation of `spreadsheetsReducer` (spreadsheets.reducer.ts). -/
def spreadsheetsReducer (state : SpreadsheetsState) :
    SpreadsheetsAction → SpreadsheetsState
  | .setRawSlots filenames =>
    { state with rawFileResults := filenames.map loadingSlot, selectedRawIndex := 0 }
  | .rawFileSuccess index result =>
    { state with rawFileResults := applySlotWrite state.rawFileResults index fun _ => successSlot result }
  | .rawFileError index error =>
    { state with rawFileResults := applySlotWrite state.rawFileResults index (errorUpdate error) }
  | .setCleanedSlots filenames =>
    { state with cleanedFileResults := filenames.map loadingSlot, selectedCleanedIndex := 0 }
  | .cleanedFileSuccess index result =>
    { state with cleanedFileResults := applySlotWrite state.cleanedFileResults index fun _ => successSlot result }
  | .cleanedFileError index error =>
    { state with cleanedFileResults := applySlotWrite state.cleanedFileResults index (errorUpdate error) }
  | .setSelectedRawIndex index =>
    { state with selectedRawIndex := index }
  | .setSelectedCleanedIndex index =>
    { state with selectedCleanedIndex := index }
  | .resetSpreadsheetsUpload => initialState
  | .setCommissionRawSlots filenames =>
    { state with commissionRawFileResults := filenames.map loadingSlot, selectedCommissionRawIndex := 0 }
  | .commissionRawFileSuccess index result =>
    { state with commissionRawFileResults := applySlotWrite state.commissionRawFileResults index fun _ => successSlot result }
  | .commissionRawFileError index error =>
    { state with commissionRawFileResults := applySlotWrite state.commissionRawFileResults index (errorUpdate error) }
  | .setCommissionCleanedSlots filenames =>
    { state with commissionCleanedFileResults := filenames.map loadingSlot, selectedCommissionCleanedIndex := 0 }
  | .commissionCleanedFileSuccess index result =>
    { state with commissionCleanedFileResults := applySlotWrite state.commissionCleanedFileResults index fun _ => successSlot result }
  | .commissionCleanedFileError index error =>
    { state with commissionCleanedFileResults := applySlotWrite state.commissionCleanedFileResults index (errorUpdate error) }
  | .setSelectedCommissionRawIndex index =>
    { state with selectedCommissionRawIndex := index }
  | .setSelectedCommissionCleanedIndex index =>
    { state with selectedCommissionCleanedIndex := index }

/-- The slot-resolution read `slots[idx] ?? null` of `currentRawSlot` /
`currentCleanedSlot` (spreadsheets-page.ts). -/
def currentSlot (slots : List FileResultSlot) (idx : Int) : Option FileResultSlot :=
  if idx < 0 then none else slots[idx.toNat]?

/-- The `err.error` response body, as inspected by the upload effects'
`catchError` callbacks: absent, an object (with `some d` when it carries a
string `detail` field), a plain string, or some other value. -/
inductive ErrBody where
  | noBody
  | obj (detail : Option String)
  | str (s : String)
  | other
deriving DecidableEq, Repr

/-- JS truthiness of an optional string (`undefined`/`null` and `''` are
falsy). -/
def jsTruthy : Option String → Bool
  | none => false
  | some s => s ≠ ""

/-- The optional-chain access `err?.error?.detail` (only an object body has a
`detail` property). -/
def bodyDetail : ErrBody → Option String
  | .obj d => d
  | _ => none

/-- Translation of the message-first `catchError` variant:
`err?.message || err?.error?.detail || 'Request failed'`. -/
def errorMessageMsgFirst (message : Option String) (body : ErrBody) : String :=
  if jsTruthy message then message.getD ""
  else if jsTruthy (bodyDetail body) then (bodyDetail body).getD ""
  else "Request failed"

/-- The structured-detail extraction of the detail-first `catchError` variant:
`body && typeof body === 'object' && typeof body.detail === 'string'
  ? body.detail : typeof body === 'string' ? body : null`. -/
def structuredDetail : ErrBody → Option String
  | .obj (some d) => some d
  | .str s => some s
  | _ => none

/-- Translation of the detail-first `catchError` variant:
`detail ?? err?.message ?? 'Request failed'` (nullish coalescing: empty
strings pass through). -/
def errorMessageDetailFirst (message : Option String) (body : ErrBody) : String :=
  match structuredDetail body with
  | some d => d
  | none =>
    match message with
    | some m => m
    | none => "Request failed"

/-- The per-file failure handling of the raw-upload effect: every failure is
converted into a `rawFileError` action carrying the computed message — nothing
is rethrown. `detailFirst` selects between the two `catchError` variants in
the sources. -/
def rawFailureAction (detailFirst : Bool) (index : Int) (message : Option String)
    (body : ErrBody) : SpreadsheetsAction :=
  .rawFileError index
    (if detailFirst then errorMessageDetailFirst message body
     else errorMessageMsgFirst message body)

/-- Statement of C8's page-number display list, following the claim's words
with explicit index lists. -/
def claimPageNumbers (total : Nat) (current : Nat) : List Int :=
  if total ≤ 7 then (List.range total).map Int.ofNat
  else if current ≤ 3 then [0, 1, 2, 3, 4, -1, (total : Int) - 1]
  else if total - 4 ≤ current then
    [0, -1, (total : Int) - 5, (total : Int) - 4, (total : Int) - 3, (total : Int) - 2, (total : Int) - 1]
  else
    [0, -1, (current : Int) - 1, (current : Int), (current : Int) + 1, -1, (total : Int) - 1]

/-- C8: for every total page count and current (clamped) page index, the
page-number display list equals all indices when the total is at most 7, and
otherwise the first-5/centered/last-5 pattern with `-1` as the ellipsis
sentinel, exactly as the claim describes. -/
theorem pageNumbers_matches_claim (total current : Nat) :
    pageNumbers total current = claimPageNumbers total current := by
  have h5 : (List.range 5).map Int.ofNat = [0, 1, 2, 3, 4] := by decide
  unfold pageNumbers claimPageNumbers
  split
  · rfl
  · split
    · rw [h5]
      rfl
    · split
      · have hr : List.range 5 = [0, 1, 2, 3, 4] := by decide
        rw [hr]
        simp only [List.map_cons, List.map_nil, List.cons_append, List.nil_append,
          List.cons.injEq, List.nil_eq]
        norm_num
        omega
      · rfl

theorem applySlotWrite_length (slots : List FileResultSlot) (i : Int)
    (f : FileResultSlot → FileResultSlot) :
    (applySlotWrite slots i f).length = slots.length := by
  unfold applySlotWrite
  split
  · rfl
  · split
    · exact List.length_set ..
    · rfl

theorem applySlotWrite_getElem_ne (slots : List FileResultSlot) (i : Int)
    (f : FileResultSlot → FileResultSlot) (j : Nat) (hj : (j : Int) ≠ i) :
    (applySlotWrite slots i f)[j]? = slots[j]? := by
  unfold applySlotWrite
  split
  · rfl
  · next hneg =>
    split
    · next s hs =>
      have hij : i.toNat ≠ j := by omega
      exact List.getElem?_set_ne hij
    · rfl

theorem applySlotWrite_oob (slots : List FileResultSlot) (i : Int)
    (f : FileResultSlot → FileResultSlot)
    (h : i < 0 ∨ (slots.length : Int) ≤ i) :
    applySlotWrite slots i f = slots := by
  unfold applySlotWrite
  split
  · rfl
  · next hneg =>
    split
    · next s hs =>
      exfalso
      have hlen : slots.length ≤ i.toNat := by omega
      rw [List.getElem?_eq_none hlen] at hs
      exact Option.noConfusion hs
    · rfl

theorem applySlotWrite_at (slots : List FileResultSlot) (i : Int)
    (f : FileResultSlot → FileResultSlot) (h0 : 0 ≤ i)
    (h : i < (slots.length : Int)) :
    (applySlotWrite slots i f)[i.toNat]? = (slots[i.toNat]?).map f := by
  have hlt : i.toNat < slots.length := by omega
  unfold applySlotWrite
  split
  · omega
  · split
    · next s hs =>
      rw [List.getElem?_set, if_pos rfl, if_pos hlt, hs]
      rfl
    · next hs =>
      exfalso
      rw [List.getElem?_eq_getElem hlt] at hs
      exact Option.noConfusion hs

/-- Agreement of two store states on every field other than the raw slot
list. -/
def agreesOffRaw (s t : SpreadsheetsState) : Prop :=
  s.cleanedFileResults = t.cleanedFileResults ∧
  s.selectedRawIndex = t.selectedRawIndex ∧
  s.selectedCleanedIndex = t.selectedCleanedIndex ∧
  s.commissionRawFileResults = t.commissionRawFileResults ∧
  s.commissionCleanedFileResults = t.commissionCleanedFileResults ∧
  s.selectedCommissionRawIndex = t.selectedCommissionRawIndex ∧
  s.selectedCommissionCleanedIndex = t.selectedCommissionCleanedIndex

/-- C10: a per-slot completion write (`rawFileSuccess` or `rawFileError`) at
index `i` leaves every other field of the state and every slot at an index
other than `i` unchanged; out of bounds (including negative `i`) the slot
list is returned unchanged; in bounds only slot `i` receives the success
slot, respectively the error update of the previous slot. -/
theorem slotWrite_frame (state : SpreadsheetsState) (index : Int)
    (result : UploadResult) (msg : String) :
    agreesOffRaw (spreadsheetsReducer state (.rawFileSuccess index result)) state ∧
    agreesOffRaw (spreadsheetsReducer state (.rawFileError index msg)) state ∧
    (spreadsheetsReducer state (.rawFileSuccess index result)).rawFileResults.length
      = state.rawFileResults.length ∧
    (spreadsheetsReducer state (.rawFileError index msg)).rawFileResults.length
      = state.rawFileResults.length ∧
    (∀ j : Nat, (j : Int) ≠ index →
      (spreadsheetsReducer state (.rawFileSuccess index result)).rawFileResults[j]?
          = state.rawFileResults[j]? ∧
        (spreadsheetsReducer state (.rawFileError index msg)).rawFileResults[j]?
          = state.rawFileResults[j]?) ∧
    ((index < 0 ∨ (state.rawFileResults.length : Int) ≤ index) →
      (spreadsheetsReducer state (.rawFileSuccess index result)).rawFileResults
          = state.rawFileResults ∧
        (spreadsheetsReducer state (.rawFileError index msg)).rawFileResults
          = state.rawFileResults) ∧
    (0 ≤ index → index < (state.rawFileResults.length : Int) →
      (spreadsheetsReducer state (.rawFileSuccess index result)).rawFileResults[index.toNat]?
          = some (successSlot result) ∧
        (spreadsheetsReducer state (.rawFileError index msg)).rawFileResults[index.toNat]?
          = (state.rawFileResults[index.toNat]?).map (errorUpdate msg)) := by
  refine ⟨⟨rfl, rfl, rfl, rfl, rfl, rfl, rfl⟩, ⟨rfl, rfl, rfl, rfl, rfl, rfl, rfl⟩,
    applySlotWrite_length .., applySlotWrite_length .., ?_, ?_, ?_⟩
  · intro j hj
    exact ⟨applySlotWrite_getElem_ne _ _ _ j hj, applySlotWrite_getElem_ne _ _ _ j hj⟩
  · intro h
    exact ⟨applySlotWrite_oob _ _ _ h, applySlotWrite_oob _ _ _ h⟩
  · intro h0 h1
    constructor
    · rw [show (spreadsheetsReducer state (.rawFileSuccess index result)).rawFileResults
          = applySlotWrite state.rawFileResults index fun _ => successSlot result from rfl]
      rw [applySlotWrite_at _ _ _ h0 h1]
      have : index.toNat < state.rawFileResults.length := by omega
      rw [List.getElem?_eq_getElem this]
      rfl
    · exact applySlotWrite_at _ _ _ h0 h1

/-- A concrete two-slot store used to instantiate the frame theorem. -/
def frameWitnessState : SpreadsheetsState :=
  ⟨[loadingSlot "a.csv", loadingSlot "b.csv"], [loadingSlot "c.csv"], 1, 2, [], [], 3, 4⟩

/-- A concrete successful upload result. -/
def frameWitnessResult : UploadResult :=
  ⟨"a.csv", 1, ["A"], [[("A", ⟨false, false, "1", some 1⟩)]]⟩

theorem slotWrite_frame_witness :
    ((spreadsheetsReducer frameWitnessState
        (.rawFileSuccess 0 frameWitnessResult)).rawFileResults[(0 : Int).toNat]?
      = some (successSlot frameWitnessResult)) ∧
    ((spreadsheetsReducer frameWitnessState
        (.rawFileSuccess 0 frameWitnessResult)).rawFileResults[(1 : Nat)]?
      = frameWitnessState.rawFileResults[(1 : Nat)]?) ∧
    ((spreadsheetsReducer frameWitnessState
        (.rawFileError 5 "boom")).rawFileResults = frameWitnessState.rawFileResults) := by
  obtain ⟨-, -, -, -, hne, -, hin⟩ :=
    slotWrite_frame frameWitnessState 0 frameWitnessResult "boom"
  obtain ⟨-, -, -, -, -, hoob5, -⟩ :=
    slotWrite_frame frameWitnessState 5 frameWitnessResult "boom"
  exact ⟨(hin (by decide) (by decide)).1, (hne 1 (by decide)).1,
    (hoob5 (by decide)).2⟩

/-- The store reached from a single-slot state by `setSelectedRawIndex 5`. -/
def c3State : SpreadsheetsState :=
  spreadsheetsReducer ⟨[loadingSlot "a.csv"], [], 0, 0, [], [], 0, 0⟩
    (.setSelectedRawIndex 5)

/-- C3 counterexample: the `setSelectedRawIndex` handler stores index 5
verbatim into a store whose raw collection has exactly one slot; the stored
index is not in the valid range `[0, 0]` and the selected-slot read resolves
to `none` although the collection is non-empty. -/
theorem setSelectedIndex_not_clamped :
    c3State.selectedRawIndex = 5 ∧
    c3State.rawFileResults.length = 1 ∧
    ¬ c3State.selectedRawIndex < (c3State.rawFileResults.length : Int) ∧
    currentSlot c3State.rawFileResults c3State.selectedRawIndex = none := by
  decide

/-- C3 as amended: every `setSelected*Index` handler stores the given index
unchanged (no clamping, no error); the UI read `slots[idx] ?? null` resolves
the stored index to a slot exactly when `0 ≤ idx < length`, and to `none`
otherwise — in particular whenever the collection is empty. -/
theorem setSelectedIndex_verbatim_read_resolves (state : SpreadsheetsState)
    (index : Int) (slots : List FileResultSlot) (i : Int) :
    (spreadsheetsReducer state (.setSelectedRawIndex index)).selectedRawIndex = index ∧
    (spreadsheetsReducer state (.setSelectedCleanedIndex index)).selectedCleanedIndex = index ∧
    (spreadsheetsReducer state (.setSelectedCommissionRawIndex index)).selectedCommissionRawIndex = index ∧
    (spreadsheetsReducer state (.setSelectedCommissionCleanedIndex index)).selectedCommissionCleanedIndex = index ∧
    ((currentSlot slots i).isSome ↔ 0 ≤ i ∧ i < (slots.length : Int)) ∧
    (0 ≤ i → i < (slots.length : Int) → currentSlot slots i = slots[i.toNat]?) := by
  refine ⟨rfl, rfl, rfl, rfl, ?_, ?_⟩
  · unfold currentSlot
    split
    · next hneg => simp only [Option.isSome_none, Bool.false_eq_true, false_iff]; omega
    · next hneg =>
      rw [Option.isSome_iff_exists]
      constructor
      · rintro ⟨a, ha⟩
        have := (List.getElem?_eq_some_iff.mp ha).1
        omega
      · intro hrange
        have hlt : i.toNat < slots.length := by omega
        exact ⟨slots[i.toNat], List.getElem?_eq_getElem hlt⟩
  · intro h0 h1
    unfold currentSlot
    rw [if_neg (by omega)]

theorem setSelectedIndex_verbatim_read_resolves_witness :
    (0 : Int) ≤ 0 ∧ currentSlot [loadingSlot "a.csv"] 0 = [loadingSlot "a.csv"][(0 : Int).toNat]? := by
  refine ⟨by decide, ?_⟩
  exact (setSelectedIndex_verbatim_read_resolves initialState 7
    [loadingSlot "a.csv"] 0).2.2.2.2.2 (by decide) (by decide)

/-- The first file's response of the superseded two-file batch, arriving after
a new one-file batch has replaced the slot collection. -/
def lateOldResult : UploadResult :=
  ⟨"old1.csv", 1, ["A"], [[("A", ⟨false, false, "1", some 1⟩)]]⟩

/-- The store right after the new batch replaced the two old loading slots. -/
def c2AfterNewBatch : SpreadsheetsState :=
  spreadsheetsReducer
    (spreadsheetsReducer initialState (.setRawSlots ["old1.csv", "old2.csv"]))
    (.setRawSlots ["new.csv"])

/-- The store after the superseded batch's index-0 response lands late. -/
def c2AfterLateWrite : SpreadsheetsState :=
  spreadsheetsReducer c2AfterNewBatch (.rawFileSuccess 0 lateOldResult)

/-- C2: a late success tagged with index 0 of the superseded batch overwrites
slot 0 of the current (new-generation) collection — the write is applied, the
new batch's loading slot for "new.csv" is replaced by the old batch's
"old1.csv" payload. The reducer's only guard is an index-bounds check; there
is no generation tag. -/
theorem lateWrite_overwrites_new_batch_slot :
    c2AfterNewBatch.rawFileResults = [loadingSlot "new.csv"] ∧
    c2AfterLateWrite.rawFileResults = [successSlot lateOldResult] ∧
    c2AfterLateWrite.rawFileResults ≠ c2AfterNewBatch.rawFileResults ∧
    (successSlot lateOldResult).filename = "old1.csv" := by
  decide

/-- C5 counterexample: on the spreadsheets page, toggling the column that is
currently sorted descending sets it back to ascending — it does not return to
the unsorted state as the tri-state cycle would require. -/
theorem setCleanedSort_desc_not_unsorted :
    setCleanedSort [⟨some "A", .desc⟩] 0 "A" = [⟨some "A", .asc⟩] ∧
    ((setCleanedSort [⟨some "A", .desc⟩] 0 "A").getD 0 defaultCleanedSort).columnKey ≠ none := by
  decide

theorem padTo_lt_length (cs : List CleanedSort) (idx : Nat) :
    idx < (padTo cs idx).length := by
  unfold padTo
  rw [List.length_append, List.length_replicate]
  omega

/-- C5 as amended: the data-table's `toggleSort` follows the tri-state cycle
on non-filterable columns (unsorted → asc → desc → unsorted, a different
column starts at asc, the page index resets to 0) and ignores filterable
columns; the spreadsheets page's `setCleanedSort`, however, follows a
two-state cycle: it always stores the clicked column, descending when that
column was already sorted ascending and ascending in every other case — it
never returns to the unsorted state. -/
theorem sortToggle_cycles (filterable : List String) (s : TableSortState)
    (col : String) (cs : List CleanedSort) (idx : Nat) (ck : String) :
    (isFilterable filterable col = false → s.sortColumn ≠ some col →
      toggleSort filterable s col = ⟨some col, .asc, 0⟩) ∧
    (isFilterable filterable col = false → s.sortColumn = some col →
      s.sortDirection = .asc → toggleSort filterable s col = ⟨some col, .desc, 0⟩) ∧
    (isFilterable filterable col = false → s.sortColumn = some col →
      s.sortDirection = .desc → toggleSort filterable s col = ⟨none, .asc, 0⟩) ∧
    (isFilterable filterable col = true → toggleSort filterable s col = s) ∧
    ((setCleanedSort cs idx ck)[idx]? = some
      ⟨some ck,
        if ((padTo cs idx).getD idx defaultCleanedSort).columnKey = some ck ∧
            ((padTo cs idx).getD idx defaultCleanedSort).direction = .asc
        then .desc else .asc⟩) ∧
    (((setCleanedSort cs idx ck)[idx]?).map CleanedSort.columnKey = some (some ck)) := by
  have hpad := padTo_lt_length cs idx
  have hset : (setCleanedSort cs idx ck)[idx]? = some
      ⟨some ck,
        if ((padTo cs idx).getD idx defaultCleanedSort).columnKey = some ck ∧
            ((padTo cs idx).getD idx defaultCleanedSort).direction = .asc
        then .desc else .asc⟩ := by
    unfold setCleanedSort
    rw [List.getElem?_set, if_pos rfl, if_pos hpad]
  refine ⟨?_, ?_, ?_, ?_, hset, by rw [hset]; rfl⟩
  · intro hfilt hne
    unfold toggleSort
    rw [hfilt]
    simp only [Bool.false_eq_true, if_false, if_neg hne]
  · intro hfilt heq hdir
    unfold toggleSort
    rw [hfilt]
    simp only [Bool.false_eq_true, if_false, if_pos heq, if_pos hdir]
    cases s
    simp_all
  · intro hfilt heq hdir
    unfold toggleSort
    rw [hfilt]
    have : s.sortDirection ≠ .asc := by rw [hdir]; intro h; cases h
    simp only [Bool.false_eq_true, if_false, if_pos heq, if_neg this]
  · intro hfilt
    unfold toggleSort
    rw [hfilt]
    simp

theorem sortToggle_cycles_witness :
    (isFilterable [] "A" = false ∧ TableSortState.sortColumn ⟨some "A", .desc, 3⟩ = some "A" ∧
      TableSortState.sortDirection ⟨some "A", .desc, 3⟩ = .desc) ∧
    toggleSort [] ⟨some "A", .desc, 3⟩ "A" = ⟨none, .asc, 0⟩ ∧
    ((setCleanedSort [] 0 "B")[0]?).map CleanedSort.columnKey = some (some "B") := by
  obtain ⟨-, -, h3, -, -, h6⟩ :=
    sortToggle_cycles [] ⟨some "A", .desc, 3⟩ "A" [] 0 "B"
  exact ⟨⟨by decide, rfl, rfl⟩, h3 (by decide) rfl rfl, h6⟩

/-- C9 counterexample: in the message-first `catchError` variant, even though
the error payload is structured (an object with the server detail
"File too large"), the emitted message is the transport-level `err.message`,
not the server-provided explanation. -/
theorem msgFirst_prefers_transport_message :
    errorMessageMsgFirst (some "Http failure response") (ErrBody.obj (some "File too large"))
        = "Http failure response" ∧
      errorMessageMsgFirst (some "Http failure response") (ErrBody.obj (some "File too large"))
        ≠ "File too large" := by
  decide

/-- C9 as amended: every per-file failure is converted into a per-slot
`rawFileError` action (never rethrown). The detail-first variant uses the
structured server detail when present (the object's string `detail`, or the
payload itself when it is a plain string), else the transport message, else
"Request failed"; the message-first variant uses a non-empty transport
message first, else a truthy structured detail, else "Request failed". The
reducer stores the message in the slot with `loading := false`, substituting
"Upload failed" for an empty message. -/
theorem errorMessage_variants_slot_error (m : Option String) (body : ErrBody)
    (d msgStr : String) (df : Bool) (index : Int) (state : SpreadsheetsState)
    (e : String) (s0 : FileResultSlot) :
    (structuredDetail body = some d → errorMessageDetailFirst m body = d) ∧
    (structuredDetail body = none → errorMessageDetailFirst m body = m.getD "Request failed") ∧
    (m = some msgStr → msgStr ≠ "" → errorMessageMsgFirst m body = msgStr) ∧
    (jsTruthy m = false → bodyDetail body = some d → d ≠ "" →
      errorMessageMsgFirst m body = d) ∧
    (jsTruthy m = false → jsTruthy (bodyDetail body) = false →
      errorMessageMsgFirst m body = "Request failed") ∧
    (∃ msg : String, rawFailureAction df index m body = .rawFileError index msg) ∧
    (0 ≤ index → index < (state.rawFileResults.length : Int) →
      state.rawFileResults[index.toNat]? = some s0 →
      (spreadsheetsReducer state (.rawFileError index e)).rawFileResults[index.toNat]?
        = some { s0 with loading := false,
                         error := some (if e = "" then "Upload failed" else e) }) := by
  refine ⟨?_, ?_, ?_, ?_, ?_, ⟨_, rfl⟩, ?_⟩
  · intro h
    unfold errorMessageDetailFirst
    rw [h]
  · intro h
    unfold errorMessageDetailFirst
    rw [h]
    cases m <;> rfl
  · intro hm hne
    unfold errorMessageMsgFirst
    rw [hm]
    have : jsTruthy (some msgStr) = true := by
      unfold jsTruthy
      exact decide_eq_true hne
    rw [this, if_pos rfl]
    rfl
  · intro hm hd hne
    unfold errorMessageMsgFirst
    rw [hm, hd]
    have : jsTruthy (some d) = true := by
      unfold jsTruthy
      exact decide_eq_true hne
    rw [this]
    rfl
  · intro hm hd
    unfold errorMessageMsgFirst
    rw [hm, hd]
    rfl
  · intro h0 h1 hs0
    have := applySlotWrite_at state.rawFileResults index (errorUpdate e) h0 h1
    rw [show (spreadsheetsReducer state (.rawFileError index e)).rawFileResults
        = applySlotWrite state.rawFileResults index (errorUpdate e) from rfl, this, hs0]
    rfl

theorem errorMessage_variants_slot_error_witness :
    (structuredDetail (ErrBody.obj (some "File too large")) = some "File too large" ∧
      errorMessageDetailFirst (some "Http failure response") (ErrBody.obj (some "File too large"))
        = "File too large") ∧
    errorMessageMsgFirst none (ErrBody.obj (some "Quota exceeded")) = "Quota exceeded" ∧
    ((spreadsheetsReducer frameWitnessState (.rawFileError 0 "")).rawFileResults[(0 : Int).toNat]?
      = some { loadingSlot "a.csv" with loading := false, error := some "Upload failed" }) := by
  obtain ⟨h1, -, -, -, -, -, -⟩ :=
    errorMessage_variants_slot_error (some "Http failure response")
      (ErrBody.obj (some "File too large")) "File too large" "x" true 0 frameWitnessState "" (loadingSlot "a.csv")
  obtain ⟨-, -, -, h4, -, -, h7⟩ :=
    errorMessage_variants_slot_error none (ErrBody.obj (some "Quota exceeded"))
      "Quota exceeded" "x" true 0 frameWitnessState "" (loadingSlot "a.csv")
  refine ⟨⟨by decide, h1 (by decide)⟩, h4 (by decide) (by decide) (by decide), ?_⟩
  have := h7 (by decide) (by decide) (by decide)
  simpa using this

/-- The keep-predicate asserted by C6 as stated: membership is required for
every column with a non-empty selected-value set in `columnFilters`,
regardless of whether that column is filterable or displayed. -/
def c6ClaimKeep (filters : List (String × List String)) (row : Row) : Bool :=
  filters.all fun p => p.2.length == 0 || p.2.contains (strOf row p.1)

/-- A row whose column B stringifies to "y". -/
def c6Row : Row :=
  [("A", ⟨false, false, "1", some 1⟩), ("B", ⟨false, false, "y", none⟩)]

/-- C6 counterexample: with displayed columns A and B, only A filterable, and
a non-empty selected set `{"x"}` recorded for B, the filter step keeps the
row with B = "y" — but the claim's predicate (membership for every column
with a non-empty set) would exclude it. A non-filterable column's entry
imposes no constraint. -/
theorem columnFilter_ignores_nonfilterable_entry :
    applyColumnFilters ["A"] [("B", ["x"])] ["A", "B"] [c6Row] = [c6Row] ∧
      c6ClaimKeep [("B", ["x"])] c6Row = false := by
  decide

/-- The row predicate of C6 as amended: a constraint applies only for a
displayed column that is filterable (case-insensitively) and has a non-empty
selected-value set; every other column imposes none. -/
def filterKeep (filterable : List String) (filters : List (String × List String))
    (cols : List String) (row : Row) : Bool :=
  cols.all fun col =>
    if isFilterable filterable col then
      match filters.lookup col with
      | some sel => sel.length == 0 || sel.contains (strOf row col)
      | none => true
    else true

theorem applyColumnFilters_cons (filterable : List String)
    (filters : List (String × List String)) (c : String) (cs : List String)
    (rows : List Row) :
    applyColumnFilters filterable filters (c :: cs) rows
      = applyColumnFilters filterable filters cs
          (rows.filter fun row => filterKeep filterable filters [c] row) := by
  unfold applyColumnFilters
  rw [List.foldl_cons]
  congr 1
  by_cases hf : isFilterable filterable c = true
  · rw [if_pos hf]
    cases hsel : filters.lookup c with
    | none =>
      symm
      rw [List.filter_eq_self]
      intro a _
      unfold filterKeep
      simp [hf, hsel]
    | some sel =>
      dsimp only
      by_cases hlen : 0 < sel.length
      · rw [if_pos hlen]
        apply List.filter_congr
        intro a _
        unfold filterKeep
        simp only [List.all_cons, List.all_nil, Bool.and_true, if_pos hf, hsel]
        have : (sel.length == 0) = false := by
          rw [beq_eq_false_iff_ne]
          omega
        rw [this, Bool.false_or]
      · rw [if_neg hlen]
        symm
        rw [List.filter_eq_self]
        intro a _
        unfold filterKeep
        have : (sel.length == 0) = true := by
          rw [beq_iff_eq]
          omega
        simp [hf, hsel, this]
  · rw [if_neg hf]
    symm
    rw [List.filter_eq_self]
    intro a _
    unfold filterKeep
    simp only [List.all_cons, List.all_nil, Bool.and_true]
    rw [if_neg hf]

/-- C6 as amended: the column-filter step keeps a row if and only if, for
every displayed column that is filterable (case-insensitive) and has a
non-empty selected-value set, the row's stringified value is a member of the
set; a column that is not displayed or not filterable, has no entry in
`columnFilters`, or has an empty selected set imposes no constraint. -/
theorem columnFilterStep_keeps_iff (filterable : List String)
    (filters : List (String × List String)) (cols : List String)
    (rows : List Row) :
    applyColumnFilters filterable filters cols rows
      = rows.filter (filterKeep filterable filters cols) := by
  induction cols generalizing rows with
  | nil =>
    unfold applyColumnFilters filterKeep
    simp
  | cons c cs ih =>
    rw [applyColumnFilters_cons, ih, List.filter_filter]
    apply List.filter_congr
    intro a _
    unfold filterKeep
    simp only [List.all_cons, List.all_nil, Bool.and_true]
    rw [Bool.and_comm]

/-- C7: a column is classified numeric iff every non-empty, non-null value in
the scanned data parses as a number; a column with zero non-empty values is
classified numeric (vacuous truth); and the sort step performs the scan on
the unfiltered slot data (the classification passed to the comparator is
`isColumnNumeric data col`, independent of search and filters). -/
theorem isColumnNumeric_characterization (data : List Row) (col : String)
    (strCmp : String → String → Int) (cols : List String) (search : String)
    (filterable : List String) (filters : List (String × List String))
    (dir : SortDir) :
    (isColumnNumeric data col = true ↔
      ∀ row ∈ data, (getCell row col).isNullish = false →
        (getCell row col).isEmptyString = false → (getCell row col).num ≠ none) ∧
    ((∀ row ∈ data, cellBlank (getCell row col) = true) →
      isColumnNumeric data col = true) ∧
    (isColumnNumeric [] col = true) ∧
    (sortedData strCmp data cols search filterable filters (some col) dir
      = if ¬ cols.contains col ∨ (filteredData data cols search filterable filters).length = 0
        then filteredData data cols search filterable filters
        else sortRows strCmp (isColumnNumeric data col) (multOf dir) col
          (filteredData data cols search filterable filters)) := by
  refine ⟨?_, ?_, rfl, rfl⟩
  · unfold isColumnNumeric
    rw [List.all_eq_true]
    constructor
    · intro h row hrow h1 h2
      have hb := h row hrow
      simp only [cellBlank, h1, h2, Bool.or_self, Bool.false_or] at hb
      exact Option.isSome_iff_ne_none.mp hb
    · intro h row hrow
      by_cases h1 : (getCell row col).isNullish = true
      · simp [cellBlank, h1]
      · by_cases h2 : (getCell row col).isEmptyString = true
        · simp [cellBlank, h2]
        · have := h row hrow (by revert h1; cases (getCell row col).isNullish <;> simp)
            (by revert h2; cases (getCell row col).isEmptyString <;> simp)
          simp [cellBlank, Option.isSome_iff_ne_none.mpr this]
  · intro h
    unfold isColumnNumeric
    rw [List.all_eq_true]
    intro row hrow
    simp [h row hrow]

/-- A single-row slot whose only value in column A is blank. -/
def c7BlankData : List Row := [[("A", ⟨true, false, "null", some 0⟩)]]

theorem isColumnNumeric_characterization_witness :
    (∀ row ∈ c7BlankData, cellBlank (getCell row "A") = true) ∧
      isColumnNumeric c7BlankData "A" = true := by
  refine ⟨by decide, ?_⟩
  exact (isColumnNumeric_characterization c7BlankData "A" (fun _ _ => 0) ["A"] "" [] []
    SortDir.asc).2.1 (by decide)

theorem multOf_cases (dir : SortDir) : multOf dir = 1 ∨ multOf dir = -1 := by
  cases dir
  · exact Or.inl rfl
  · exact Or.inr rfl

theorem rowLe_numeric_trans (strCmp : String → String → Int) (mult : Rat)
    (hmult : mult = 1 ∨ mult = -1) (col : String) (a b c : Row)
    (hab : rowLe strCmp true mult col a b = true)
    (hbc : rowLe strCmp true mult col b c = true) :
    rowLe strCmp true mult col a c = true := by
  unfold rowLe rowCmp at hab hbc ⊢
  rcases ha : cellNum a col with _ | x <;> rcases hb : cellNum b col with _ | y <;>
    rcases hc : cellNum c col with _ | z <;>
    simp [ha, hb, hc] at hab hbc ⊢ <;>
    rcases hmult with rfl | rfl <;> linarith

theorem rowLe_numeric_total (strCmp : String → String → Int) (mult : Rat)
    (hmult : mult = 1 ∨ mult = -1) (col : String) (a b : Row) :
    (rowLe strCmp true mult col a b || rowLe strCmp true mult col b a) = true := by
  unfold rowLe rowCmp
  rcases ha : cellNum a col with _ | x <;> rcases hb : cellNum b col with _ | y <;>
    simp [ha, hb] <;>
    rcases hmult with rfl | rfl <;> rcases le_total x y with h | h <;>
    [left; right; right; left] <;> linarith

theorem rowLe_numeric_none (strCmp : String → String → Int) (mult : Rat)
    (col : String) (a b : Row) (ha : cellNum a col = none)
    (h : rowLe strCmp true mult col a b = true) :
    cellNum b col = none := by
  rcases hb : cellNum b col with _ | y
  · rfl
  · exfalso
    unfold rowLe rowCmp at h
    rw [ha, hb] at h
    simp at h
    norm_num at h

theorem rowLe_numeric_parse_le (strCmp : String → String → Int) (mult : Rat)
    (col : String) (a b : Row) (x y : Rat)
    (hx : cellNum a col = some x) (hy : cellNum b col = some y)
    (h : rowLe strCmp true mult col a b = true) :
    mult * (x - y) ≤ 0 := by
  unfold rowLe rowCmp at h
  rw [hx, hy] at h
  simpa using h

theorem rowLe_numeric_imp (strCmp : String → String → Int) (dir : SortDir)
    (col : String) (a b : Row)
    (h : rowLe strCmp true (multOf dir) col a b = true) :
    (cellNum a col = none → cellNum b col = none) ∧
    (∀ x y : Rat, cellNum a col = some x → cellNum b col = some y →
      (dir = .asc → x ≤ y) ∧ (dir = .desc → y ≤ x)) := by
  refine ⟨fun ha => rowLe_numeric_none strCmp (multOf dir) col a b ha h, ?_⟩
  intro x y hx hy
  have hle := rowLe_numeric_parse_le strCmp (multOf dir) col a b x y hx hy h
  cases dir
  · simp only [multOf] at hle
    exact ⟨fun _ => by linarith, fun hd => absurd hd (by decide)⟩
  · simp only [multOf] at hle
    exact ⟨fun hd => absurd hd (by decide), fun _ => by linarith⟩

/-- C1: whenever the engine treats the sort column as numeric and sorting is
applied, the sorted output places every row whose value fails to parse after
all rows with parseable values (in both directions), the parseable entries
appear with non-decreasing parsed values in ascending direction and
non-increasing values in descending direction, and the comparator judges two
unparseable entries equal. -/
theorem numericSort_order (strCmp : String → String → Int) (data : List Row)
    (cols : List String) (search : String) (filterable : List String)
    (filters : List (String × List String)) (col : String) (dir : SortDir)
    (hnum : isColumnNumeric data col = true) (hcol : cols.contains col = true) :
    (sortedData strCmp data cols search filterable filters (some col) dir).Pairwise
      (fun a b =>
        (cellNum a col = none → cellNum b col = none) ∧
        (∀ x y : Rat, cellNum a col = some x → cellNum b col = some y →
          (dir = .asc → x ≤ y) ∧ (dir = .desc → y ≤ x))) ∧
    (∀ a b : Row, cellNum a col = none → cellNum b col = none →
      rowCmp strCmp true (multOf dir) col a b = 0) := by
  constructor
  · unfold sortedData
    dsimp only
    split
    · next hguard =>
      rcases hguard with hg | hg
      · exact absurd hcol hg
      · rw [List.length_eq_zero.mp hg]
        exact List.Pairwise.nil
    · rw [hnum]
      unfold sortRows
      have hpw := List.sorted_mergeSort
        (fun a b c => rowLe_numeric_trans strCmp (multOf dir) (multOf_cases dir) col a b c)
        (fun a b => rowLe_numeric_total strCmp (multOf dir) (multOf_cases dir) col a b)
        (filteredData data cols search filterable filters)
      exact hpw.imp (fun h => rowLe_numeric_imp strCmp dir col _ _ h)
  · intro a b ha hb
    unfold rowCmp
    simp [ha, hb]

/-- The spec-style slot for the C1 witness: values "10" and "2" parse, the
third row's cell is absent (`Number(undefined)` is `NaN`, and the blank value
keeps the column classified numeric). -/
def c1Data : List Row :=
  [[("A", ⟨false, false, "10", some 10⟩)],
   [("A", ⟨false, false, "2", some 2⟩)],
   [("A", undefCell)]]

theorem numericSort_order_witness :
    (isColumnNumeric c1Data "A" = true ∧ ["A"].contains "A" = true) ∧
    (sortedData (fun _ _ => 0) c1Data ["A"] "" [] [] (some "A") SortDir.asc).Pairwise
      (fun a b =>
        (cellNum a "A" = none → cellNum b "A" = none) ∧
        (∀ x y : Rat, cellNum a "A" = some x → cellNum b "A" = some y →
          (SortDir.asc = .asc → x ≤ y) ∧ (SortDir.asc = .desc → y ≤ x))) := by
  refine ⟨⟨by decide, by decide⟩, ?_⟩
  exact (numericSort_order (fun _ _ => 0) c1Data ["A"] "" [] [] "A" SortDir.asc
    (by decide) (by decide)).1

theorem sortedData_length (strCmp : String → String → Int) (data : List Row)
    (cols : List String) (search : String) (filterable : List String)
    (filters : List (String × List String)) (sortCol : Option String)
    (dir : SortDir) :
    (sortedData strCmp data cols search filterable filters sortCol dir).length
      = totalRows data cols search filterable filters := by
  unfold sortedData totalRows
  cases sortCol with
  | none => rfl
  | some col =>
    dsimp only
    split
    · rfl
    · unfold sortRows
      exact List.length_mergeSort _

theorem totalPages_ceil (total size : Nat) (hs : 0 < size) :
    (total = 0 → totalPages total size = 0) ∧
    total ≤ totalPages total size * size ∧
    (0 < totalPages total size → (totalPages total size - 1) * size < total) := by
  unfold totalPages
  rw [if_neg (by omega)]
  by_cases h0 : total = 0
  · subst h0
    have hz : (0 + size - 1) / size = 0 := Nat.div_eq_of_lt (by omega)
    rw [hz]
    exact ⟨fun _ => rfl, Nat.zero_le _, fun h => absurd h (by omega)⟩
  · have h1 : total + size - 1 = (total - 1) + size := by omega
    rw [h1, Nat.add_div_right _ hs]
    have h2 : total - 1 < ((total - 1) / size + 1) * size := by
      have hdm := Nat.div_add_mod (total - 1) size
      have hm : (total - 1) % size < size := Nat.mod_lt _ hs
      calc total - 1 = size * ((total - 1) / size) + (total - 1) % size := hdm.symm
        _ < size * ((total - 1) / size) + size := by omega
        _ = ((total - 1) / size + 1) * size := by ring
    refine ⟨fun h => absurd h h0, Nat.le_of_pred_lt h2, fun _ => ?_⟩
    rw [Nat.add_sub_cancel]
    exact Nat.lt_of_le_of_lt (Nat.div_mul_le_self _ _)
      (Nat.sub_lt (Nat.pos_of_ne_zero h0) Nat.one_pos)

theorem clampedPageIndex_zero_pages (idx : Int) : clampedPageIndex 0 idx = 0 := by
  unfold clampedPageIndex
  omega

theorem clampedPageIndex_lt (pages : Nat) (idx : Int) (h : 0 < pages) :
    clampedPageIndex pages idx < pages := by
  unfold clampedPageIndex
  omega

theorem clampedPageIndex_of_lt (pages i : Nat) (h : i < pages) :
    clampedPageIndex pages (i : Int) = i := by
  unfold clampedPageIndex
  omega

theorem flatten_pageSlices (size : Nat) (hs : 0 < size) :
    ∀ (n : Nat) (rows : List Row), rows.length ≤ n * size →
      ((List.range n).map fun i => pageSlice rows size (i * size)).flatten = rows := by
  intro n
  induction n with
  | zero =>
    intro rows h
    rw [Nat.zero_mul] at h
    rw [List.length_eq_zero.mp (Nat.le_zero.mp h)]
    rfl
  | succ n ih =>
    intro rows h
    rw [List.range_succ_eq_map, List.map_cons, List.map_map]
    have hfun : ((fun i => pageSlice rows size (i * size)) ∘ Nat.succ)
        = fun i => pageSlice (rows.drop size) size (i * size) := by
      funext i
      show pageSlice rows size (Nat.succ i * size) = pageSlice (rows.drop size) size (i * size)
      unfold pageSlice
      rw [List.drop_drop]
      have hidx : Nat.succ i * size = size + i * size := by
        rw [Nat.succ_mul, Nat.add_comm]
      rw [hidx]
    have hlen : (rows.drop size).length ≤ n * size := by
      rw [List.length_drop]
      have hmul : (n + 1) * size = n * size + size := by ring
      rw [hmul] at h
      exact Nat.sub_le_iff_le_add.mpr h
    rw [hfun, List.flatten_cons, ih (rows.drop size) hlen]
    show pageSlice rows size (0 * size) ++ rows.drop size = rows
    unfold pageSlice
    rw [Nat.zero_mul, List.drop_zero, List.take_append_drop]

/-- C4: with a positive page size, `totalPages` is the ceiling of the
filtered count over the page size (0 when the count is 0); the page index
used for slicing is the requested one clamped into `[0, totalPages - 1]`
(0 when there are no pages); every page holds at most `pageSize` rows; and
the pages in order concatenate back to the full filtered-and-sorted
sequence. -/
theorem pagination_properties (strCmp : String → String → Int) (data : List Row)
    (cols : List String) (search : String) (filterable : List String)
    (filters : List (String × List String)) (sortCol : Option String)
    (dir : SortDir) (pageIdx : Int) (size : Nat) (hs : 0 < size) :
    (totalRows data cols search filterable filters = 0 →
      totalPages (totalRows data cols search filterable filters) size = 0) ∧
    (totalRows data cols search filterable filters
      ≤ totalPages (totalRows data cols search filterable filters) size * size) ∧
    (0 < totalPages (totalRows data cols search filterable filters) size →
      (totalPages (totalRows data cols search filterable filters) size - 1) * size
        < totalRows data cols search filterable filters) ∧
    (totalPages (totalRows data cols search filterable filters) size = 0 →
      clampedPageIndex (totalPages (totalRows data cols search filterable filters) size) pageIdx = 0) ∧
    (0 < totalPages (totalRows data cols search filterable filters) size →
      clampedPageIndex (totalPages (totalRows data cols search filterable filters) size) pageIdx
        < totalPages (totalRows data cols search filterable filters) size) ∧
    ((paginatedData strCmp data cols search filterable filters sortCol dir pageIdx size).length
      ≤ size) ∧
    (((List.range (totalPages (totalRows data cols search filterable filters) size)).map
        fun i : Nat => paginatedData strCmp data cols search filterable filters sortCol dir (i : Int) size).flatten
      = sortedData strCmp data cols search filterable filters sortCol dir) := by
  obtain ⟨hc0, hcle, hclt⟩ := totalPages_ceil (totalRows data cols search filterable filters) size hs
  refine ⟨hc0, hcle, hclt, fun h => by rw [h]; exact clampedPageIndex_zero_pages pageIdx,
    fun h => clampedPageIndex_lt _ pageIdx h, ?_, ?_⟩
  · unfold paginatedData pageSlice
    rw [List.length_take]
    exact Nat.min_le_left _ _
  · have hmap : (List.range (totalPages (totalRows data cols search filterable filters) size)).map
        (fun i : Nat => paginatedData strCmp data cols search filterable filters sortCol dir (i : Int) size)
        = (List.range (totalPages (totalRows data cols search filterable filters) size)).map
          (fun i : Nat => pageSlice (sortedData strCmp data cols search filterable filters sortCol dir)
            size (i * size)) := by
      apply List.map_congr_left
      intro i hi
      rw [List.mem_range] at hi
      unfold paginatedData
      rw [clampedPageIndex_of_lt _ i hi]
    rw [hmap]
    apply flatten_pageSlices size hs
    rw [sortedData_length]
    exact hcle

/-- Five one-column rows for the pagination witness. -/
def c4Data : List Row :=
  [[("A", ⟨false, false, "1", some 1⟩)],
   [("A", ⟨false, false, "2", some 2⟩)],
   [("A", ⟨false, false, "3", some 3⟩)],
   [("A", ⟨false, false, "4", some 4⟩)],
   [("A", ⟨false, false, "5", some 5⟩)]]

theorem pagination_properties_witness :
    (0 < 2 ∧ totalRows c4Data ["A"] "" [] [] = 5 ∧ totalPages 5 2 = 3 ∧
      clampedPageIndex 3 7 = 2) ∧
    ((paginatedData (fun _ _ => 0) c4Data ["A"] "" [] [] none SortDir.asc 7 2).length ≤ 2) ∧
    (((List.range (totalPages (totalRows c4Data ["A"] "" [] []) 2)).map
        fun i : Nat => paginatedData (fun _ _ => 0) c4Data ["A"] "" [] [] none SortDir.asc (i : Int) 2).flatten
      = sortedData (fun _ _ => 0) c4Data ["A"] "" [] [] none SortDir.asc) := by
  obtain ⟨-, -, -, -, -, h6, h7⟩ :=
    pagination_properties (fun _ _ => 0) c4Data ["A"] "" [] [] none SortDir.asc 7 2 (by decide)
  exact ⟨⟨by decide, by decide, by decide, by decide⟩, h6, h7⟩
